import Mathlib

/-!
Shallow embedding of the forklift per-VM migration convergence engine
(plan/kubevirt controller and the openstack provider client), together with
theorems settling the frozen claims about it.  Pure data and control flow of
the Go source are translated into executable Lean definitions; the cluster
store is a list of labeled objects, HTTP and service outcomes are explicit
inputs.
-/

namespace Forklift

/-- Label keys used by the controller: the ownership triple (migration, plan,
vmID) plus the auxiliary keys appearing in selectors: the forklift.app role
key, the ova marker key, the job-name key of the pods a Job spawns, and the
plain app key carried by CDI importer pods. -/
inductive LKey where
  | migration
  | plan
  | vmID
  | app
  | ova
  | jobName
  | appPlain
deriving DecidableEq, Repr

/-- First-match lookup in an association list of labels, as a Go map read. -/
def lookupKV : List (LKey × String) → LKey → Option String
  | [], _ => none
  | (k, v) :: rest, key => if k = key then some v else lookupKV rest key

/-- A label selector built from a set matches an object whose labels are a
superset of the selector pairs (labels.SelectorFromSet semantics). -/
def selMatches (sel objL : List (LKey × String)) : Bool :=
  sel.all fun kv => lookupKV objL kv.1 == some kv.2

/-- String-keyed association lookup (for annotation maps and secret data). -/
def lookupS : List (String × String) → String → Option String
  | [], _ => none
  | (k, v) :: rest, key => if k = key then some v else lookupS rest key

/-- Deletion of a key from a string-keyed map, as the Go delete builtin. -/
def removeKeyS (l : List (String × String)) (key : String) : List (String × String) :=
  l.filter fun kv => !(decide (kv.1 = key))

/-- planLabels: migration and plan UID labels. -/
def planLabelsSel (m p : String) : List (LKey × String) :=
  [(LKey.migration, m), (LKey.plan, p)]

/-- vmLabels: the full ownership triple for a VM on a plan. -/
def vmLabelsSel (m p v : String) : List (LKey × String) :=
  planLabelsSel m p ++ [(LKey.vmID, v)]

/-- vmAllButMigrationLabels: the triple with the migration key deleted. -/
def vmAllButMigrationSel (m p v : String) : List (LKey × String) :=
  (vmLabelsSel m p v).filter fun kv => !(decide (kv.1 = LKey.migration))

/-- The selector getPVCs passes: migration UID and vmID, with no plan key and
no namespace restriction. -/
def pvcSel (m v : String) : List (LKey × String) :=
  [(LKey.migration, m), (LKey.vmID, v)]

/-- The selector getPopulatorPods passes: the migration UID alone. -/
def populatorPodsSel (m : String) : List (LKey × String) :=
  [(LKey.migration, m)]

/-- The selector the second list of DeleteJobs passes for the pods of one
deleted job: the job-name key alone, no ownership label. -/
def jobPodsSel (j : String) : List (LKey × String) :=
  [(LKey.jobName, j)]

/-- The selector getImporterPods (DeleteImporterPods) passes: the plain app
key with the CDI importer value, no ownership label; pods are then filtered
by name prefix only. -/
def importerPodsSel : List (LKey × String) :=
  [(LKey.appPlain, "containerized-data-importer")]

/-- The selector EnsureOVAVirtV2VPVCStatus passes: migration, the ova marker
label and vmID, with no plan key. -/
def ovaPvcStatusSel (m v : String) : List (LKey × String) :=
  [(LKey.migration, m), (LKey.ova, "nfs-pvc"), (LKey.vmID, v)]

/-- conversionLabels: the VM labels (optionally without migration) plus the
virt-v2v app marker. -/
def conversionSel (m p v : String) (filterOutMigration : Bool) : List (LKey × String) :=
  (if filterOutMigration then vmAllButMigrationSel m p v else vmLabelsSel m p v)
    ++ [(LKey.app, "virt-v2v")]

/-- consumerLabels: the VM labels (optionally without migration) plus the
consumer app marker. -/
def consumerSel (m p v : String) (filterOutMigration : Bool) : List (LKey × String) :=
  (if filterOutMigration then vmAllButMigrationSel m p v else vmLabelsSel m p v)
    ++ [(LKey.app, "consumer")]

/-- The label-selector list call sites the Ensure and Delete operations of
the convergence and teardown engines issue, one entry per call site; j is
the name of a job DeleteJobs deleted, whose pods its second list collects. -/
def ensureOpSelectors (m p v j : String) : List (String × List (LKey × String)) :=
  [ ("EnsureVM.listVirtualMachines", vmLabelsSel m p v),
    ("EnsureVM.listDataVolumes", vmLabelsSel m p v),
    ("EnsureDataVolumes.list", vmLabelsSel m p v),
    ("ensureSecret.list", vmLabelsSel m p v),
    ("ensureConfigMap.list", vmLabelsSel m p v),
    ("EnsurePersistentVolume.list", vmLabelsSel m p v),
    ("EnsureGuestConversionPod.getPods", conversionSel m p v true),
    ("EnsureOVAVirtV2VPVCStatus.list", ovaPvcStatusSel m v),
    ("getPVCs.list", pvcSel m v),
    ("getDVs.list", vmLabelsSel m p v),
    ("DeleteSecret.list", vmAllButMigrationSel m p v),
    ("DeleteConfigMap.list", vmAllButMigrationSel m p v),
    ("DeleteVM.list", vmAllButMigrationSel m p v),
    ("DeleteHookJobs.list", vmAllButMigrationSel m p v),
    ("DeleteJobs.listJobs", vmAllButMigrationSel m p v),
    ("DeleteJobs.listJobPods", jobPodsSel j),
    ("DeleteImporterPods.getImporterPods", importerPodsSel),
    ("DeletePVCConsumerPod.getPods", consumerSel m p v true),
    ("DeleteGuestConversionPod.getPods", conversionSel m p v true),
    ("getPopulatorPods.list", populatorPodsSel m) ]

/-- A selector carries the full ownership triple for (m, p, v). -/
abbrev hasTriple (sel : List (LKey × String)) (m p v : String) : Prop :=
  lookupKV sel LKey.migration = some m ∧ lookupKV sel LKey.plan = some p ∧
    lookupKV sel LKey.vmID = some v

/-- A selector carries plan and vmID but intentionally no migration key. -/
abbrev hasAllButMigration (sel : List (LKey × String)) (p v : String) : Prop :=
  lookupKV sel LKey.migration = none ∧ lookupKV sel LKey.plan = some p ∧
    lookupKV sel LKey.vmID = some v

/-- A KubeVirt VirtualMachine object as stored: namespace, labels and an
abstract spec payload. -/
structure StoreVM where
  ns : String
  labels : List (LKey × String)
  spec : Nat
deriving DecidableEq

/-- The plan context EnsureVM runs under. -/
structure PlanCtx where
  migUID : String
  planUID : String
  targetNs : String
deriving DecidableEq

/-- List VirtualMachines in a namespace matching a label selector. -/
def listScopedVMs (store : List StoreVM) (ns : String) (sel : List (LKey × String)) :
    List StoreVM :=
  store.filter fun o => (o.ns == ns) && selMatches sel o.labels

/-- The VirtualMachine EnsureVM creates when none matches: it lives in the
target namespace and carries the full ownership triple as labels. -/
def mkTargetVM (ctx : PlanCtx) (vmID : String) (sp : Nat) : StoreVM :=
  { ns := ctx.targetNs, labels := vmLabelsSel ctx.migUID ctx.planUID vmID, spec := sp }

/-- EnsureVM: list VirtualMachines by the VM ownership-label selector in the
target namespace; create one when none is found, otherwise adopt the existing
object unchanged (the PVC owner-reference patches touch no VirtualMachine). -/
def ensureVM (ctx : PlanCtx) (vmID : String) (sp : Nat) (store : List StoreVM) :
    List StoreVM :=
  match listScopedVMs store ctx.targetNs (vmLabelsSel ctx.migUID ctx.planUID vmID) with
  | [] => store ++ [mkTargetVM ctx vmID sp]
  | _ :: _ => store

/-- A CDI DataVolume object as stored: namespace, generated object name,
labels, and an abstract source payload the identity resolver reads. -/
structure StoreDV where
  ns : String
  name : String
  labels : List (LKey × String)
  payload : Nat
deriving DecidableEq

/-- List DataVolumes in a namespace matching a label selector. -/
def listScopedDVs (store : List StoreDV) (ns : String) (sel : List (LKey × String)) :
    List StoreDV :=
  store.filter fun o => (o.ns == ns) && selMatches sel o.labels

/-- isDataVolumeExistsInList: a desired DataVolume already exists when some
listed item has an equal Builder-resolved identifier. -/
def isDataVolumeExistsInList (resolve : StoreDV → String) (dv : StoreDV)
    (l : List StoreDV) : Bool :=
  l.any fun item => resolve dv == resolve item

/-- The create loop of EnsureDataVolumes: each desired DataVolume absent from
the initially listed set (by resolved identifier) is created. -/
def ensureDataVolumesLoop (resolve : StoreDV → String) (existing : List StoreDV) :
    List StoreDV → List StoreDV → List StoreDV
  | [], store => store
  | dv :: rest, store =>
    if isDataVolumeExistsInList resolve dv existing then
      ensureDataVolumesLoop resolve existing rest store
    else
      ensureDataVolumesLoop resolve existing rest (store ++ [dv])

/-- The DataVolumes already labeled for the VM in the target namespace. -/
def existingDVs (ctx : PlanCtx) (vmID : String) (store : List StoreDV) : List StoreDV :=
  listScopedDVs store ctx.targetNs (vmLabelsSel ctx.migUID ctx.planUID vmID)

/-- EnsureDataVolumes: list existing DataVolumes by the VM ownership-label
selector, then create each desired one whose resolved identifier is absent. -/
def ensureDataVolumes (resolve : StoreDV → String) (ctx : PlanCtx) (vmID : String)
    (desired : List StoreDV) (store : List StoreDV) : List StoreDV :=
  ensureDataVolumesLoop resolve (existingDVs ctx vmID store) desired store

/-- True for a lowercase letter or digit. -/
def isLowerAlnum (c : Char) : Bool :=
  (decide ('a' ≤ c) && decide (c ≤ 'z')) || (decide ('0' ≤ c) && decide (c ≤ '9'))

/-- True for a character the DNS-1123 label grammar allows anywhere. -/
def isLabelChar (c : Char) : Bool :=
  isLowerAlnum c || c == '-'

/-- k8s IsDNS1123Label: at most 63 characters, nonempty, lowercase
alphanumerics and hyphens only, first and last character alphanumeric. -/
def isDNS1123Label (l : List Char) : Bool :=
  decide (l.length ≤ 63) &&
  (match l.head? with
   | some c => isLowerAlnum c
   | none => false) &&
  (match l.getLast? with
   | some c => isLowerAlnum c
   | none => false) &&
  l.all isLabelChar

/-- Remove leading and trailing hyphens. -/
def trimHyphens (l : List Char) : List Char :=
  ((l.dropWhile fun c => c == '-').reverse.dropWhile fun c => c == '-').reverse

/-- Modelled from the spec: the function changeVmNameDNS1123 the controller
calls is not among the repository files given; the spec says an invalid VM
display name is deterministically rewritten to a valid lowercase-hyphen
DNS-1123 label of at most 63 characters.  The model lowercases, keeps only
label characters, truncates to 63, trims hyphens at both ends, and falls back
to a fixed valid name when nothing remains. -/
def changeVmNameDNS1123 (name : List Char) : List Char :=
  let cleaned := trimHyphens (((name.map Char.toLower).filter isLabelChar).take 63)
  if cleaned.isEmpty then ['v', 'm', '0'] else cleaned

/-- The source VM status fields the naming logic reads. -/
structure VMStatusM where
  name : List Char
  id : String
deriving DecidableEq

/-- The name and original-name/original-ID annotation outcome of building the
target VM resource. -/
structure VmNameOutcome where
  finalName : List Char
  origAnn : Option (List Char × String)
deriving DecidableEq

/-- The name-rewriting prologue and annotation epilogue of virtualMachine:
an invalid display name is rewritten and, when the original name was
nonempty, recorded with the VM id in the annotations; a valid name is kept
and nothing is recorded. -/
def vmNameAndAnnots (vm : VMStatusM) : VmNameOutcome :=
  if isDNS1123Label vm.name then
    { finalName := vm.name, origAnn := none }
  else if vm.name.length > 0 then
    { finalName := changeVmNameDNS1123 vm.name, origAnn := some (vm.name, vm.id) }
  else
    { finalName := changeVmNameDNS1123 vm.name, origAnn := none }

/-- A decoded target VirtualMachine definition: the fields the synthesis
strategies and their post-processing touch. -/
structure VmDefT where
  name : String
  ns : String
  labels : List (LKey × String)
  annots : List (String × String)
  volumes : List Nat
  networks : List Nat
  dvTemplates : List Nat
deriving DecidableEq

/-- Which synthesis strategy produced the VM definition. -/
inductive VmSource where
  | fromPreference
  | fromTemplate
  | fromEmpty
deriving DecidableEq

/-- emptyVm: a bare VirtualMachine in the target namespace carrying the VM
ownership labels and the VM name, with an empty template. -/
def emptyVm (vmName ns : String) (ls : List (LKey × String)) : VmDefT :=
  { name := vmName, ns := ns, labels := ls, annots := [],
    volumes := [], networks := [], dvTemplates := [] }

/-- The strategy selection of virtualMachine: a preference failure falls back
to the template strategy, a template failure falls back to the empty
definition; no strategy failure escapes as an error. -/
def selectVmDef (pref : Except String VmDefT) (tmpl : Option VmDefT) (eDef : VmDefT) :
    VmDefT × VmSource :=
  match pref with
  | .ok v => (v, VmSource.fromPreference)
  | .error _ =>
    match tmpl with
    | some v => (v, VmSource.fromTemplate)
    | none => (eDef, VmSource.fromEmpty)

/-- The three-strategy synthesis with the empty definition built as in the
source: target namespace, VM labels, VM name. -/
def virtualMachineStrategy (pref : Except String VmDefT) (tmpl : Option VmDefT)
    (vmName ns : String) (ls : List (LKey × String)) : VmDefT × VmSource :=
  selectVmDef pref tmpl (emptyVm vmName ns ls)

/-- A manifest template parameter. -/
structure TmplParam where
  name : String
  value : String
  generate : String
deriving DecidableEq

/-- A manifest template: creation timestamp and parameters. -/
structure TemplateM where
  created : Nat
  parameters : List TmplParam
deriving DecidableEq

/-- Insert keeping newest-first order (the sort.Slice comparator of
findTemplate orders by descending creation timestamp). -/
def insertByNewest (t : TemplateM) : List TemplateM → List TemplateM
  | [] => [t]
  | u :: rest =>
    if u.created ≤ t.created then t :: u :: rest else u :: insertByNewest t rest

/-- Sort newest-first by creation timestamp. -/
def sortByNewest : List TemplateM → List TemplateM
  | [] => []
  | t :: rest => insertByNewest t (sortByNewest rest)

/-- findTemplate on the label-matching templates: none when the list is
empty, the single element when there is one, else the head of the list sorted
by descending creation timestamp. -/
def findTemplate : List TemplateM → Option TemplateM
  | [] => none
  | [t] => some t
  | t₁ :: t₂ :: rest => (sortByNewest (t₁ :: t₂ :: rest)).head?

/-- processTemplate as coded: the NAME parameter value is bound to the VM
display name and every other parameter value is set to the literal string
"other" before the template processor runs. -/
def processTemplateParams (vmName : String) (ps : List TmplParam) : List TmplParam :=
  ps.map fun p =>
    if p.name = "NAME" then { p with value := vmName } else { p with value := "other" }

/-- Follows the words of the spec, for comparison with processTemplateParams:
the spec says every parameter except the name parameter is filled by a
random-value generator; the generator is abstracted as a function of the
parameter generate expression. -/
def processTemplateParamsSpec (vmName : String) (gen : String → String)
    (ps : List TmplParam) : List TmplParam :=
  ps.map fun p =>
    if p.name = "NAME" then { p with value := vmName } else { p with value := gen p.generate }

/-- The KubeVirt validations annotation key stripped from template VMs. -/
def annKubevirtValidations : String := "vm.kubevirt.io/validations"

/-- Upsert of one label, as a Go map assignment. -/
def upsertKV : List (LKey × String) → LKey → String → List (LKey × String)
  | [], k, val => [(k, val)]
  | (k', v') :: rest, k, val =>
    if k' = k then (k, val) :: rest else (k', v') :: upsertKV rest k val

/-- Merge of the VM ownership labels into the decoded template labels. -/
def mergeKV (base add : List (LKey × String)) : List (LKey × String) :=
  add.foldl (fun acc kv => upsertKV acc kv.1 kv.2) base

/-- The post-processing vmTemplate applies to the decoded VM definition:
relabel, set name and namespace, reset volumes, networks and
data-volume-templates, and strip the validations annotation. -/
def vmTemplateFinalize (vmName ns : String) (vmLs : List (LKey × String))
    (v : VmDefT) : VmDefT :=
  { v with
    labels := mergeKV v.labels vmLs,
    name := vmName,
    ns := ns,
    volumes := [], networks := [], dvTemplates := [],
    annots := removeKeyS v.annots annKubevirtValidations }

/-- The migration step UpdateVmByConvertedConfig marks. -/
structure StepM where
  completed : Bool
  progressCompleted : Nat
  progressTotal : Nat
deriving DecidableEq

/-- Outcome of the GET on the conversion pod /ovf endpoint: connection
refused, another transport error, or a body. -/
inductive GetOutcome where
  | refused
  | failed
  | ok (body : String)
deriving DecidableEq

/-- Outcome of the POST to /shutdown: delivered, connection dropped with EOF,
or another transport error. -/
inductive PostOutcome where
  | posted
  | droppedEOF
  | failed
deriving DecidableEq

/-- What one UpdateVmByConvertedConfig call produced. -/
structure UpdateResult where
  firmware : Option String
  step : StepM
  errored : Bool
  shutdownPosted : Bool
deriving DecidableEq

/-- UpdateVmByConvertedConfig: no pod IP is a silent no-op; connection
refused on GET /ovf is swallowed leaving the step untouched; another GET
error is surfaced; a body whose firmware parses is recorded, POST /shutdown
is issued (EOF treated as success, another POST error surfaced) and the step
is marked completed with progress at its total. -/
def updateVmByConvertedConfig (hasIP : Bool) (get : GetOutcome)
    (parseFw : String → Option String) (post : PostOutcome)
    (fw0 : Option String) (step : StepM) : UpdateResult :=
  if hasIP = false then ⟨fw0, step, false, false⟩
  else
    match get with
    | GetOutcome.refused => ⟨fw0, step, false, false⟩
    | GetOutcome.failed => ⟨fw0, step, true, false⟩
    | GetOutcome.ok body =>
      match parseFw body with
      | none => ⟨fw0, step, true, false⟩
      | some fw =>
        let postErr :=
          match post with
          | PostOutcome.posted => false
          | PostOutcome.droppedEOF => false
          | PostOutcome.failed => true
        ⟨some fw,
         { step with completed := true, progressCompleted := step.progressTotal },
         postErr, true⟩

/-- Outcome of one Create call against the store. -/
inductive CreateOutcome where
  | ok
  | alreadyExists
  | failed
deriving DecidableEq

/-- Outcome of one Delete call against the store. -/
inductive DeleteOutcome where
  | ok
  | failed
deriving DecidableEq

/-- How an ensureObject run ended. -/
inductive EnsureResult where
  | success
  | createFailed
  | stillExists
  | deleteFailed
deriving DecidableEq

/-- The result the first create attempt alone determines when its outcome is
not AlreadyExists. -/
def firstAttemptResult : CreateOutcome → EnsureResult
  | CreateOutcome.ok => EnsureResult.success
  | CreateOutcome.failed => EnsureResult.createFailed
  | CreateOutcome.alreadyExists => EnsureResult.stillExists

/-- The delete-and-retry loop of ensureObject, recursing on the retry budget:
returns how many creates and deletes ran and the final result.  The attempt
index feeds the outcome oracles.  With the budget at 0 an AlreadyExists
outcome breaks the loop carrying that error. -/
def ensureObjectLoop (creates : Nat → CreateOutcome) (deletes : Nat → DeleteOutcome) :
    Nat → Nat → Nat × Nat × EnsureResult
  | 0, attempt =>
    match creates attempt with
    | CreateOutcome.ok => (1, 0, EnsureResult.success)
    | CreateOutcome.failed => (1, 0, EnsureResult.createFailed)
    | CreateOutcome.alreadyExists => (1, 0, EnsureResult.stillExists)
  | r + 1, attempt =>
    match creates attempt with
    | CreateOutcome.ok => (1, 0, EnsureResult.success)
    | CreateOutcome.failed => (1, 0, EnsureResult.createFailed)
    | CreateOutcome.alreadyExists =>
      match deletes attempt with
      | DeleteOutcome.failed => (1, 1, EnsureResult.deleteFailed)
      | DeleteOutcome.ok =>
        let res := ensureObjectLoop creates deletes r (attempt + 1)
        (res.1 + 1, res.2.1 + 1, res.2.2)

/-- ensureObject: create, and on AlreadyExists delete and retry with an
initial retry budget of 3. -/
def ensureObject (creates : Nat → CreateOutcome) (deletes : Nat → DeleteOutcome) :
    Nat × Nat × EnsureResult :=
  ensureObjectLoop creates deletes 3 0

/-- Error classes of the openstack service. -/
inductive OsError where
  | forbidden
  | notFound
  | otherE
deriving DecidableEq

/-- isForbidden: only the 403 error class. -/
def isForbiddenE : OsError → Bool
  | OsError.forbidden => true
  | _ => false

/-- The project branch of Client.list: a Forbidden from the primary project
listing is intercepted and the user-scoped fallback result substituted; any
other error propagates. -/
def listProjects (primary fallback : Except OsError (List String)) :
    Except OsError (List String) :=
  match primary with
  | .ok ps => .ok ps
  | .error e => if isForbiddenE e then fallback else .error e

/-- The project branch of Client.get: same fallback on Forbidden. -/
def getProject (primary fallback : Except OsError String) : Except OsError String :=
  match primary with
  | .ok p => .ok p
  | .error e => if isForbiddenE e then fallback else .error e

/-- Every non-project branch of Client.list and Client.get: the service
outcome, errors included, is returned as is. -/
def listGeneric (primary : Except OsError (List String)) : Except OsError (List String) :=
  primary

/-- Go strconv.ParseBool: the exact accepted spellings. -/
def parseBoolGo (s : String) : Option Bool :=
  if s = "1" ∨ s = "t" ∨ s = "T" ∨ s = "TRUE" ∨ s = "true" ∨ s = "True" then some true
  else if s = "0" ∨ s = "f" ∨ s = "F" ∨ s = "FALSE" ∨ s = "false" ∨ s = "False" then
    some false
  else none

/-- Client.insecureSkipVerify: true only when the credential Secret has an
insecureSkipVerify key whose value ParseBool accepts as true; a missing key
or a parse error yields false. -/
def insecureSkipVerify (data : List (String × String)) : Bool :=
  match lookupS data "insecureSkipVerify" with
  | some s =>
    match parseBoolGo s with
    | some b => b
    | none => false
  | none => false

/-- The TLS client configuration Connect builds. -/
inductive TLSSetup where
  | insecureSkip
  | verifying
deriving DecidableEq

/-- The TLS decision of Connect: skip verification only when
insecureSkipVerify holds, else configure root CAs and verify. -/
def connectTLS (data : List (String × String)) : TLSSetup :=
  if insecureSkipVerify data then TLSSetup.insecureSkip else TLSSetup.verifying

end Forklift

namespace Forklift

/-- The create and delete counts of the ensureObject loop never exceed one
more than the retry budget, and the budget, respectively. -/
theorem ensureObjectLoop_le (creates : Nat → CreateOutcome)
    (deletes : Nat → DeleteOutcome) :
    ∀ retry attempt,
      (ensureObjectLoop creates deletes retry attempt).1 ≤ retry + 1 ∧
      (ensureObjectLoop creates deletes retry attempt).2.1 ≤ retry := by
  intro retry
  induction retry with
  | zero =>
    intro attempt
    rcases h : creates attempt <;> simp [ensureObjectLoop, h]
  | succ r ih =>
    intro attempt
    rcases h : creates attempt <;> simp [ensureObjectLoop, h]
    rcases hd : deletes attempt <;> simp
    have := ih (attempt + 1)
    omega

/-- A first create outcome other than AlreadyExists ends the loop at once. -/
theorem ensureObjectLoop_first (creates : Nat → CreateOutcome)
    (deletes : Nat → DeleteOutcome) (r attempt : Nat)
    (h : creates attempt ≠ CreateOutcome.alreadyExists) :
    ensureObjectLoop creates deletes (r + 1) attempt =
      (1, 0, firstAttemptResult (creates attempt)) := by
  rcases hc : creates attempt <;>
    simp [ensureObjectLoop, hc, firstAttemptResult]
  exact absurd hc h

/-- Claim C4: target VM synthesis tries preference, then template, then the
empty definition, and exhausting all strategies yields the empty definition
built from the VM name, target namespace and VM labels, not an error. -/
theorem c4_strategy_fallback (msg vmName ns : String) (ls : List (LKey × String))
    (tmpl : Option VmDefT) (v w : VmDefT) :
    (virtualMachineStrategy (.ok v) tmpl vmName ns ls = (v, VmSource.fromPreference)) ∧
    (virtualMachineStrategy (.error msg) (some w) vmName ns ls =
        (w, VmSource.fromTemplate)) ∧
    (virtualMachineStrategy (.error msg) none vmName ns ls =
        (emptyVm vmName ns ls, VmSource.fromEmpty)) ∧
    ((virtualMachineStrategy (.error msg) none vmName ns ls).1.name = vmName ∧
      (virtualMachineStrategy (.error msg) none vmName ns ls).1.ns = ns ∧
      (virtualMachineStrategy (.error msg) none vmName ns ls).1.labels = ls) :=
  ⟨rfl, rfl, rfl, rfl, rfl, rfl⟩

/-- Claim C5: connection refused on GET /ovf returns no error and leaves the
step untouched; any other GET transport error is surfaced with the step
untouched; a body whose firmware parses leads to the shutdown POST, records
the firmware, marks the step completed with progress at its total, and only a
non-EOF POST failure surfaces an error. -/
theorem c5_conversion_polling (parseFw : String → Option String) (post : PostOutcome)
    (fw0 : Option String) (step : StepM) (body f : String) :
    (updateVmByConvertedConfig true GetOutcome.refused parseFw post fw0 step =
        ⟨fw0, step, false, false⟩) ∧
    (updateVmByConvertedConfig true GetOutcome.failed parseFw post fw0 step =
        ⟨fw0, step, true, false⟩) ∧
    (updateVmByConvertedConfig false (GetOutcome.ok body) parseFw post fw0 step =
        ⟨fw0, step, false, false⟩) ∧
    (parseFw body = some f →
      (updateVmByConvertedConfig true (GetOutcome.ok body) parseFw post fw0 step).firmware
          = some f ∧
      (updateVmByConvertedConfig true (GetOutcome.ok body) parseFw post fw0 step).step =
          { step with completed := true, progressCompleted := step.progressTotal } ∧
      (updateVmByConvertedConfig true (GetOutcome.ok body) parseFw post fw0
          step).shutdownPosted = true ∧
      ((updateVmByConvertedConfig true (GetOutcome.ok body) parseFw post fw0
          step).errored = true ↔ post = PostOutcome.failed)) := by
  refine ⟨rfl, rfl, rfl, fun h => ?_⟩
  cases post <;> simp [updateVmByConvertedConfig, h]

/-- Witness for C5: a concrete successful poll and shutdown. -/
theorem c5_conversion_polling_witness :
    (updateVmByConvertedConfig true (GetOutcome.ok "xml") (fun _ => some "efi")
        PostOutcome.droppedEOF none ⟨false, 0, 7⟩).step =
      ⟨true, 7, 7⟩ ∧
    (updateVmByConvertedConfig true (GetOutcome.ok "xml") (fun _ => some "efi")
        PostOutcome.droppedEOF none ⟨false, 0, 7⟩).errored = false := by
  have h := (c5_conversion_polling (fun _ => some "efi") PostOutcome.droppedEOF none
    ⟨false, 0, 7⟩ "xml" "efi").2.2.2 rfl
  refine ⟨h.2.1, ?_⟩
  rcases hb : (updateVmByConvertedConfig true (GetOutcome.ok "xml") (fun _ => some "efi")
      PostOutcome.droppedEOF none ⟨false, 0, 7⟩).errored
  · rfl
  · exact absurd (h.2.2.2.mp hb) (by simp)

/-- Claim C7: ensureObject terminates with at most 4 create attempts and 3
deletes; any first-create outcome other than AlreadyExists ends the loop at
once with that outcome; a delete failure ends the loop at once; exhausting
the retries performs exactly 4 creates and 3 deletes. -/
theorem c7_ensureObject_bounded (creates : Nat → CreateOutcome)
    (deletes : Nat → DeleteOutcome) :
    ((ensureObject creates deletes).1 ≤ 4 ∧ (ensureObject creates deletes).2.1 ≤ 3) ∧
    (creates 0 ≠ CreateOutcome.alreadyExists →
        ensureObject creates deletes = (1, 0, firstAttemptResult (creates 0))) ∧
    (creates 0 = CreateOutcome.alreadyExists → deletes 0 = DeleteOutcome.failed →
        ensureObject creates deletes = (1, 1, EnsureResult.deleteFailed)) ∧
    (ensureObject (fun _ => CreateOutcome.alreadyExists) (fun _ => DeleteOutcome.ok) =
        (4, 3, EnsureResult.stillExists)) := by
  refine ⟨ensureObjectLoop_le creates deletes 3 0, fun h => ?_, fun hc hd => ?_, by decide⟩
  · exact ensureObjectLoop_first creates deletes 2 0 h
  · show ensureObjectLoop creates deletes (2 + 1) 0 = (1, 1, EnsureResult.deleteFailed)
    simp [ensureObjectLoop, hc, hd]

/-- Witness for C7: a run whose first create succeeds. -/
theorem c7_ensureObject_bounded_witness :
    ensureObject (fun _ => CreateOutcome.ok) (fun _ => DeleteOutcome.ok) =
      (1, 0, EnsureResult.success) :=
  (c7_ensureObject_bounded (fun _ => CreateOutcome.ok) (fun _ => DeleteOutcome.ok)).2.1
    (by decide)

/-- Claim C8 counterexample: a Forbidden error from the primary project
listing (and project get) is not propagated; the user-scoped fallback result
is substituted instead. -/
theorem c8_counterexample :
    listProjects (.error OsError.forbidden) (.ok ["p1"]) = .ok ["p1"] ∧
    getProject (.error OsError.forbidden) (.ok "p1") = .ok "p1" ∧
    (Except.ok ["p1"] : Except OsError (List String)) ≠ .error OsError.forbidden :=
  ⟨rfl, rfl, fun h => Except.noConfusion h⟩

/-- Claim C8 amended: every non-project operation propagates a Forbidden
error untouched; listing and getting projects intercept Forbidden and
substitute the user-scoped fallback outcome, and propagate every other
error. -/
theorem c8_forbidden_handling (e : OsError) (fb : Except OsError (List String))
    (fbp : Except OsError String) (l : List String) (s : String) :
    (listGeneric (.error e) = .error e) ∧
    (isForbiddenE e = false → listProjects (.error e) fb = .error e) ∧
    (listProjects (.error OsError.forbidden) fb = fb) ∧
    (getProject (.error OsError.forbidden) fbp = fbp) ∧
    (isForbiddenE e = false → getProject (.error e) fbp = .error e) ∧
    (listProjects (.ok l) fb = .ok l) ∧
    (getProject (.ok s) fbp = .ok s) := by
  refine ⟨rfl, fun h => ?_, rfl, rfl, fun h => ?_, rfl, rfl⟩
  · simp [listProjects, h]
  · simp [getProject, h]

/-- Witness for C8: a NotFound error from the project listing propagates. -/
theorem c8_forbidden_handling_witness :
    listProjects (.error OsError.notFound) (.ok ["p1"]) = .error OsError.notFound :=
  (c8_forbidden_handling OsError.notFound (.ok ["p1"]) (.ok "p1") [] "").2.1 rfl

/-- Claim C10: TLS verification is skipped only on explicit opt-in; a missing
insecureSkipVerify key or an unparsable value yields false and Connect
configures a verifying TLS client. -/
theorem c10_insecure_opt_in (data : List (String × String)) :
    (insecureSkipVerify data = true ↔
       ∃ s, lookupS data "insecureSkipVerify" = some s ∧ parseBoolGo s = some true) ∧
    (lookupS data "insecureSkipVerify" = none → insecureSkipVerify data = false) ∧
    (∀ s, lookupS data "insecureSkipVerify" = some s → parseBoolGo s = none →
       insecureSkipVerify data = false) ∧
    (insecureSkipVerify data = false → connectTLS data = TLSSetup.verifying) := by
  rcases h : lookupS data "insecureSkipVerify" with _ | s
  · simp [insecureSkipVerify, connectTLS, h]
  · rcases hp : parseBoolGo s with _ | b
    · simp [insecureSkipVerify, connectTLS, h, hp]
    · cases b <;> simp [insecureSkipVerify, connectTLS, h, hp]

/-- Witness for C10: an unparsable value keeps the verifying client. -/
theorem c10_insecure_opt_in_witness :
    insecureSkipVerify [("insecureSkipVerify", "bogus")] = false ∧
    connectTLS [("insecureSkipVerify", "bogus")] = TLSSetup.verifying := by
  have h := c10_insecure_opt_in [("insecureSkipVerify", "bogus")]
  have hf : insecureSkipVerify [("insecureSkipVerify", "bogus")] = false :=
    h.2.2.1 "bogus" (by decide) (by decide)
  exact ⟨hf, h.2.2.2 hf⟩

end Forklift

namespace Forklift

/-- The VirtualMachine EnsureVM creates matches its own list selector. -/
theorem mkTargetVM_matches (ctx : PlanCtx) (vmID : String) (sp : Nat) :
    ((mkTargetVM ctx vmID sp).ns == ctx.targetNs) = true ∧
    selMatches (vmLabelsSel ctx.migUID ctx.planUID vmID)
      (mkTargetVM ctx vmID sp).labels = true := by
  constructor
  · simp [mkTargetVM]
  · simp [selMatches, mkTargetVM, vmLabelsSel, planLabelsSel, lookupKV]

/-- Claim C1: when a VirtualMachine bearing the VM ownership labels already
exists in the target namespace, EnsureVM changes nothing; and starting from a
state with at most one such VirtualMachine, two sequential EnsureVM calls
with identical input leave exactly one VirtualMachine with those labels. -/
theorem c1_ensureVM_idempotent (ctx : PlanCtx) (vmID : String) (sp : Nat)
    (store : List StoreVM) :
    (listScopedVMs store ctx.targetNs (vmLabelsSel ctx.migUID ctx.planUID vmID) ≠ [] →
       ensureVM ctx vmID sp store = store) ∧
    ((listScopedVMs store ctx.targetNs (vmLabelsSel ctx.migUID ctx.planUID vmID)).length
        ≤ 1 →
       (listScopedVMs (ensureVM ctx vmID sp (ensureVM ctx vmID sp store)) ctx.targetNs
          (vmLabelsSel ctx.migUID ctx.planUID vmID)).length = 1) := by
  constructor
  · intro hne
    unfold ensureVM
    rcases hE : listScopedVMs store ctx.targetNs (vmLabelsSel ctx.migUID ctx.planUID vmID)
      with _ | ⟨x, xs⟩
    · exact absurd hE hne
    · rfl
  · intro hlen
    rcases hE : listScopedVMs store ctx.targetNs (vmLabelsSel ctx.migUID ctx.planUID vmID)
      with _ | ⟨x, xs⟩
    · have h1 : ensureVM ctx vmID sp store = store ++ [mkTargetVM ctx vmID sp] := by
        unfold ensureVM; rw [hE]
      have hmk := mkTargetVM_matches ctx vmID sp
      have h2 : listScopedVMs (store ++ [mkTargetVM ctx vmID sp]) ctx.targetNs
          (vmLabelsSel ctx.migUID ctx.planUID vmID) = [mkTargetVM ctx vmID sp] := by
        unfold listScopedVMs at hE ⊢
        rw [List.filter_append, hE]
        simp [hmk.1, hmk.2]
      have h3 : ensureVM ctx vmID sp (store ++ [mkTargetVM ctx vmID sp]) =
          store ++ [mkTargetVM ctx vmID sp] := by
        unfold ensureVM; rw [h2]
      rw [h1, h3, h2]
      rfl
    · have h1 : ensureVM ctx vmID sp store = store := by
        unfold ensureVM; rw [hE]
      rw [h1, h1, hE]
      rw [hE] at hlen
      simp only [List.length_cons] at hlen ⊢
      omega

/-- Witness for C1: from an empty store, two EnsureVM calls leave exactly one
labeled VirtualMachine. -/
theorem c1_ensureVM_idempotent_witness :
    (listScopedVMs
        (ensureVM ⟨"m0", "p0", "ns0"⟩ "v0" 5 (ensureVM ⟨"m0", "p0", "ns0"⟩ "v0" 5 []))
        "ns0" (vmLabelsSel "m0" "p0" "v0")).length = 1 :=
  (c1_ensureVM_idempotent ⟨"m0", "p0", "ns0"⟩ "v0" 5 []).2 (by decide)

/-- The EnsureDataVolumes loop creates exactly the desired DataVolumes whose
resolved identifier is absent from the initially listed set. -/
theorem ensureDataVolumesLoop_eq (resolve : StoreDV → String) (existing : List StoreDV) :
    ∀ desired store, ensureDataVolumesLoop resolve existing desired store =
      store ++ desired.filter
        (fun dv => !(isDataVolumeExistsInList resolve dv existing)) := by
  intro desired
  induction desired with
  | nil => intro store; simp [ensureDataVolumesLoop]
  | cons dv rest ih =>
    intro store
    by_cases h : isDataVolumeExistsInList resolve dv existing
    · simp [ensureDataVolumesLoop, h, ih, List.filter_cons]
    · simp [ensureDataVolumesLoop, h, ih, List.filter_cons]

/-- Claim C2: EnsureDataVolumes creates a desired DataVolume exactly when no
DataVolume already labeled for the VM resolves to an equal Builder
identifier; existence is decided purely by the resolved identifier, so a
desired volume whose identifier an existing volume shares is never created,
whatever the generated object names are. -/
theorem c2_ensureDataVolumes (resolve : StoreDV → String) (ctx : PlanCtx)
    (vmID : String) (desired store : List StoreDV) :
    (ensureDataVolumes resolve ctx vmID desired store =
       store ++ desired.filter
         (fun dv => !(isDataVolumeExistsInList resolve dv (existingDVs ctx vmID store)))) ∧
    (∀ dv, isDataVolumeExistsInList resolve dv (existingDVs ctx vmID store) = true ↔
       ∃ e ∈ existingDVs ctx vmID store, resolve dv = resolve e) ∧
    (∀ dv e, e ∈ existingDVs ctx vmID store → resolve dv = resolve e →
       dv ∉ desired.filter
         (fun dv2 => !(isDataVolumeExistsInList resolve dv2 (existingDVs ctx vmID store)))) := by
  refine ⟨ensureDataVolumesLoop_eq resolve _ desired store, fun dv => ?_,
    fun dv e he hr hmem => ?_⟩
  · simp [isDataVolumeExistsInList, List.any_eq_true]
  · rw [List.mem_filter] at hmem
    have hex : isDataVolumeExistsInList resolve dv (existingDVs ctx vmID store) = true := by
      simp only [isDataVolumeExistsInList, List.any_eq_true]
      exact ⟨e, he, by simp [hr]⟩
    simp [hex] at hmem

/-- Witness for C2: a desired DataVolume with a fresh generated name but the
identifier of an existing labeled DataVolume is not created. -/
theorem c2_ensureDataVolumes_witness :
    (⟨"ns0", "name-b", vmLabelsSel "m0" "p0" "v0", 7⟩ : StoreDV) ∉
      ([⟨"ns0", "name-b", vmLabelsSel "m0" "p0" "v0", 7⟩] : List StoreDV).filter
        (fun dv2 => !(isDataVolumeExistsInList (fun d => toString d.payload) dv2
          (existingDVs ⟨"m0", "p0", "ns0"⟩ "v0"
            [⟨"ns0", "name-a", vmLabelsSel "m0" "p0" "v0", 7⟩]))) :=
  (c2_ensureDataVolumes (fun d => toString d.payload) ⟨"m0", "p0", "ns0"⟩ "v0"
      [⟨"ns0", "name-b", vmLabelsSel "m0" "p0" "v0", 7⟩]
      [⟨"ns0", "name-a", vmLabelsSel "m0" "p0" "v0", 7⟩]).2.2
    ⟨"ns0", "name-b", vmLabelsSel "m0" "p0" "v0", 7⟩
    ⟨"ns0", "name-a", vmLabelsSel "m0" "p0" "v0", 7⟩ (by decide) (by decide)

/-- A successful label lookup exhibits the pair as a member. -/
theorem lookupKV_mem : ∀ (l : List (LKey × String)) (k : LKey) (w : String),
    lookupKV l k = some w → (k, w) ∈ l := by
  intro l
  induction l with
  | nil => intro k w h; simp [lookupKV] at h
  | cons kv rest ih =>
    intro k w h
    obtain ⟨a, b⟩ := kv
    simp only [lookupKV] at h
    by_cases hk : a = k
    · subst hk
      rw [if_pos rfl] at h
      injection h with h'
      subst h'
      exact List.mem_cons_self _ _
    · rw [if_neg hk] at h
      exact List.mem_cons_of_mem _ (ih k w h)

/-- Claim C9 counterexample: the PVC query of the convergence and teardown
paths selects by migration and vmID only, so its selector carries neither
the full ownership triple nor the triple without migration (the plan key is
absent); moreover the job-pod list of DeleteJobs selects by the job-name key
alone and the importer-pod list of DeleteImporterPods by the plain app key
alone, selectors that carry no ownership label and do not pin the vmID. -/
theorem c9_counterexample :
    ("getPVCs.list", pvcSel "m0" "v0") ∈ ensureOpSelectors "m0" "p0" "v0" "j0" ∧
    ¬ (hasTriple (pvcSel "m0" "v0") "m0" "p0" "v0" ∨
        hasAllButMigration (pvcSel "m0" "v0") "p0" "v0") ∧
    ("DeleteJobs.listJobPods", jobPodsSel "j0") ∈ ensureOpSelectors "m0" "p0" "v0" "j0" ∧
    ¬ (hasTriple (jobPodsSel "j0") "m0" "p0" "v0" ∨
        hasAllButMigration (jobPodsSel "j0") "p0" "v0") ∧
    lookupKV (jobPodsSel "j0") LKey.vmID = none ∧
    ("DeleteImporterPods.getImporterPods", importerPodsSel) ∈
      ensureOpSelectors "m0" "p0" "v0" "j0" ∧
    lookupKV importerPodsSel LKey.vmID = none := by
  refine ⟨by simp [ensureOpSelectors], by decide, by simp [ensureOpSelectors],
    by decide, rfl, by simp [ensureOpSelectors], rfl⟩

/-- Claim C9 amended: every label-selector list the EnsureX and DeleteX
operations issue carries the full ownership triple or the triple without
migration, except five call sites: the PVC queries (migration and vmID, no
plan), the OVA virt-v2v PVC status query (migration, ova marker and vmID, no
plan), the populator-pod query (migration only), the per-job pod list of
DeleteJobs (job-name key only) and the importer-pod list of
DeleteImporterPods (plain app key only); every selector except the last
three pins the vmID, and any object matched by a selector that pins the
vmID carries that vmID label. -/
theorem c9_label_scoping (m p v j : String) :
    (∀ e ∈ ensureOpSelectors m p v j,
        hasTriple e.2 m p v ∨ hasAllButMigration e.2 p v ∨
        e.2 = pvcSel m v ∨ e.2 = ovaPvcStatusSel m v ∨ e.2 = populatorPodsSel m ∨
        e.2 = jobPodsSel j ∨ e.2 = importerPodsSel) ∧
    (∀ e ∈ ensureOpSelectors m p v j,
        (e.2 = populatorPodsSel m ∨ e.2 = jobPodsSel j ∨ e.2 = importerPodsSel) ∨
        lookupKV e.2 LKey.vmID = some v) ∧
    (∀ sel objL w, lookupKV sel LKey.vmID = some w → selMatches sel objL = true →
        lookupKV objL LKey.vmID = some w) := by
  refine ⟨fun e he => ?_, fun e he => ?_, fun sel objL w h1 h2 => ?_⟩
  · simp only [ensureOpSelectors, List.mem_cons, List.not_mem_nil, or_false] at he
    rcases he with rfl | rfl | rfl | rfl | rfl | rfl | rfl | rfl | rfl | rfl | rfl | rfl |
      rfl | rfl | rfl | rfl | rfl | rfl | rfl | rfl <;>
      first
        | exact Or.inl ⟨rfl, rfl, rfl⟩
        | exact Or.inr (Or.inl ⟨rfl, rfl, rfl⟩)
        | exact Or.inr (Or.inr (Or.inl rfl))
        | exact Or.inr (Or.inr (Or.inr (Or.inl rfl)))
        | exact Or.inr (Or.inr (Or.inr (Or.inr (Or.inl rfl))))
        | exact Or.inr (Or.inr (Or.inr (Or.inr (Or.inr (Or.inl rfl)))))
        | exact Or.inr (Or.inr (Or.inr (Or.inr (Or.inr (Or.inr rfl)))))
  · simp only [ensureOpSelectors, List.mem_cons, List.not_mem_nil, or_false] at he
    rcases he with rfl | rfl | rfl | rfl | rfl | rfl | rfl | rfl | rfl | rfl | rfl | rfl |
      rfl | rfl | rfl | rfl | rfl | rfl | rfl | rfl <;>
      first
        | exact Or.inl (Or.inl rfl)
        | exact Or.inl (Or.inr (Or.inl rfl))
        | exact Or.inl (Or.inr (Or.inr rfl))
        | exact Or.inr rfl
  · have hm : (LKey.vmID, w) ∈ sel := lookupKV_mem sel LKey.vmID w h1
    simp only [selMatches, List.all_eq_true] at h2
    have := h2 (LKey.vmID, w) hm
    exact beq_iff_eq.mp this

/-- Witness for C9: an object matched by the PVC selector carries the pinned
vmID label. -/
theorem c9_label_scoping_witness :
    lookupKV (pvcSel "m0" "v0") LKey.vmID = some "v0" :=
  (c9_label_scoping "m0" "p0" "v0" "j0").2.2 (pvcSel "m0" "v0") (pvcSel "m0" "v0") "v0"
    (by decide) (by decide)

end Forklift

namespace Forklift

/-- The head the dropWhile loop stops at fails the predicate. -/
theorem dropWhile_head?_false {α : Type} (p : α → Bool) :
    ∀ (l : List α) (c : α), (l.dropWhile p).head? = some c → p c = false := by
  intro l
  induction l with
  | nil => intro c hc; simp [List.dropWhile] at hc
  | cons a t ih =>
    intro c hc
    rw [List.dropWhile_cons] at hc
    by_cases h : p a
    · rw [if_pos h] at hc
      exact ih c hc
    · rw [if_neg h] at hc
      injection hc with hc'
      subst hc'
      exact Bool.eq_false_iff.mpr h

/-- dropWhile keeps a suffix, so a nonempty result keeps the last element. -/
theorem dropWhile_getLast?_of_ne_nil {α : Type} (p : α → Bool) :
    ∀ (l : List α), l.dropWhile p ≠ [] → (l.dropWhile p).getLast? = l.getLast? := by
  intro l
  induction l with
  | nil => intro h; simp [List.dropWhile] at h
  | cons a t ih =>
    intro h
    rw [List.dropWhile_cons] at h ⊢
    by_cases hp : p a
    · rw [if_pos hp] at h ⊢
      have ht : t ≠ [] := by
        intro he
        subst he
        simp [List.dropWhile] at h
      rw [ih h]
      cases t with
      | nil => exact absurd rfl ht
      | cons b t' => exact (List.getLast?_cons_cons).symm
    · rw [if_neg hp]

/-- The last element, when present, is a member. -/
theorem getLast?_some_mem {α : Type} {l : List α} {a : α} (h : l.getLast? = some a) :
    a ∈ l := by
  have h1 : l.reverse.head? = some a := by rw [List.head?_reverse]; exact h
  exact List.mem_reverse.mp (List.mem_of_mem_head? h1)

/-- Hyphen trimming only keeps characters of the input. -/
theorem mem_of_mem_trimHyphens {c : Char} {l : List Char} (h : c ∈ trimHyphens l) :
    c ∈ l := by
  unfold trimHyphens at h
  rw [List.mem_reverse] at h
  have h1 := (List.dropWhile_suffix _).sublist.subset h
  rw [List.mem_reverse] at h1
  exact (List.dropWhile_suffix _).sublist.subset h1

/-- Hyphen trimming never lengthens a list. -/
theorem trimHyphens_length_le (l : List Char) : (trimHyphens l).length ≤ l.length := by
  unfold trimHyphens
  rw [List.length_reverse]
  refine le_trans (List.dropWhile_suffix _).sublist.length_le ?_
  rw [List.length_reverse]
  exact (List.dropWhile_suffix _).sublist.length_le

/-- The first character of a hyphen-trimmed list is no hyphen. -/
theorem trimHyphens_head? (l : List Char) (c : Char)
    (h : (trimHyphens l).head? = some c) : (c == '-') = false := by
  unfold trimHyphens at h
  rw [List.head?_reverse] at h
  have hBne : (l.dropWhile fun c => c == '-').reverse.dropWhile (fun c => c == '-')
      ≠ [] := by
    intro he
    rw [he] at h
    simp at h
  rw [dropWhile_getLast?_of_ne_nil _ _ hBne] at h
  rw [List.getLast?_reverse] at h
  exact dropWhile_head?_false _ _ c h

/-- The last character of a hyphen-trimmed list is no hyphen. -/
theorem trimHyphens_getLast? (l : List Char) (c : Char)
    (h : (trimHyphens l).getLast? = some c) : (c == '-') = false := by
  unfold trimHyphens at h
  rw [List.getLast?_reverse] at h
  exact dropWhile_head?_false _ _ c h

/-- A label character that is no hyphen is a lowercase alphanumeric. -/
theorem isLowerAlnum_of_label_not_hyphen {c : Char} (h1 : isLabelChar c = true)
    (h2 : (c == '-') = false) : isLowerAlnum c = true := by
  unfold isLabelChar at h1
  rw [h2] at h1
  simpa using h1

/-- Every character the name cleaner keeps is a label character. -/
theorem label_char_of_mem_clean (name : List Char) (c : Char)
    (h : c ∈ ((name.map Char.toLower).filter isLabelChar).take 63) :
    isLabelChar c = true :=
  (List.mem_filter.mp ((List.take_sublist _ _).subset h)).2

/-- The spec-modelled name rewrite always produces a valid DNS-1123 label. -/
theorem changeVmNameDNS1123_valid (name : List Char) :
    isDNS1123Label (changeVmNameDNS1123 name) = true := by
  unfold changeVmNameDNS1123
  cases hemp : (trimHyphens (((name.map Char.toLower).filter isLabelChar).take 63)).isEmpty
  · simp only [hemp, Bool.false_eq_true, if_false]
    have hne : trimHyphens (((name.map Char.toLower).filter isLabelChar).take 63) ≠ [] := by
      intro he
      rw [he] at hemp
      simp at hemp
    obtain ⟨c, hc⟩ : ∃ c,
        (trimHyphens (((name.map Char.toLower).filter isLabelChar).take 63)).head? =
          some c := by
      cases htb : trimHyphens (((name.map Char.toLower).filter isLabelChar).take 63) with
      | nil => exact absurd htb hne
      | cons a t => exact ⟨a, rfl⟩
    obtain ⟨d, hd⟩ : ∃ d,
        (trimHyphens (((name.map Char.toLower).filter isLabelChar).take 63)).getLast? =
          some d :=
      Option.isSome_iff_exists.mp (List.getLast?_isSome.mpr hne)
    unfold isDNS1123Label
    rw [hc, hd]
    simp only [Bool.and_eq_true]
    refine ⟨⟨⟨?_, ?_⟩, ?_⟩, ?_⟩
    · exact decide_eq_true
        (le_trans (trimHyphens_length_le _) (List.length_take_le _ _))
    · exact isLowerAlnum_of_label_not_hyphen
        (label_char_of_mem_clean name c (mem_of_mem_trimHyphens (List.mem_of_mem_head? hc)))
        (trimHyphens_head? _ c hc)
    · exact isLowerAlnum_of_label_not_hyphen
        (label_char_of_mem_clean name d (mem_of_mem_trimHyphens (getLast?_some_mem hd)))
        (trimHyphens_getLast? _ d hd)
    · rw [List.all_eq_true]
      intro x hx
      exact label_char_of_mem_clean name x (mem_of_mem_trimHyphens hx)
  · simp only [hemp, if_true]
    decide

/-- Claim C3 amended: the produced VM name is always a valid DNS-1123 label;
a valid display name is kept unchanged with no original-name or original-ID
annotation recorded; an invalid one is rewritten by the deterministic
rewrite, and the original name and VM id are recorded in the annotations
exactly when the original name was nonempty. -/
theorem c3_name_rewrite (vm : VMStatusM) :
    isDNS1123Label (vmNameAndAnnots vm).finalName = true ∧
    (vmNameAndAnnots vm).finalName =
      (if isDNS1123Label vm.name then vm.name else changeVmNameDNS1123 vm.name) ∧
    (vmNameAndAnnots vm).origAnn =
      (if isDNS1123Label vm.name = false ∧ 0 < vm.name.length then
        some (vm.name, vm.id) else none) := by
  unfold vmNameAndAnnots
  by_cases h : isDNS1123Label vm.name = true
  · simp [h]
  · by_cases hl : vm.name.length > 0
    · simp [h, hl, changeVmNameDNS1123_valid, Bool.eq_false_iff.mpr h]
    · simp [h, hl, changeVmNameDNS1123_valid, Bool.eq_false_iff.mpr h]

/-- Witness for C3: a nonempty invalid display name gets its original name
and id recorded in the annotations. -/
theorem c3_name_rewrite_witness :
    (vmNameAndAnnots ⟨['M', 'y'], "id1"⟩).origAnn = some (['M', 'y'], "id1") := by
  have h := (c3_name_rewrite ⟨['M', 'y'], "id1"⟩).2.2
  rw [h]
  decide

/-- Claim C3 counterexample: the empty display name is not a valid DNS-1123
label and gets rewritten to a valid nonempty one, yet no original-name or
original-ID annotation is recorded, because the annotation branch requires a
nonempty original name. -/
theorem c3_counterexample :
    isDNS1123Label (VMStatusM.mk [] "id0").name = false ∧
    (vmNameAndAnnots (VMStatusM.mk [] "id0")).finalName ≠ ([] : List Char) ∧
    isDNS1123Label (vmNameAndAnnots (VMStatusM.mk [] "id0")).finalName = true ∧
    (vmNameAndAnnots (VMStatusM.mk [] "id0")).origAnn = none := by decide

end Forklift

namespace Forklift

/-- Membership in the newest-first insertion. -/
theorem mem_insertByNewest (t : TemplateM) :
    ∀ (l : List TemplateM) (x : TemplateM),
      x ∈ insertByNewest t l ↔ x = t ∨ x ∈ l := by
  intro l
  induction l with
  | nil => intro x; simp [insertByNewest]
  | cons u rest ih =>
    intro x
    unfold insertByNewest
    by_cases h : u.created ≤ t.created
    · rw [if_pos h]
      simp only [List.mem_cons]
    · rw [if_neg h]
      simp only [List.mem_cons, ih]
      tauto

/-- The newest-first sort permutes membership. -/
theorem mem_sortByNewest : ∀ (l : List TemplateM) (x : TemplateM),
    x ∈ sortByNewest l ↔ x ∈ l := by
  intro l
  induction l with
  | nil => intro x; simp [sortByNewest]
  | cons t rest ih =>
    intro x
    simp [sortByNewest, mem_insertByNewest, ih, List.mem_cons]

/-- Insertion keeps the newest-first pairwise order. -/
theorem insertByNewest_pairwise (t : TemplateM) :
    ∀ l : List TemplateM,
      List.Pairwise (fun a b : TemplateM => b.created ≤ a.created) l →
      List.Pairwise (fun a b : TemplateM => b.created ≤ a.created)
        (insertByNewest t l) := by
  intro l
  induction l with
  | nil => intro _; simp [insertByNewest]
  | cons u rest ih =>
    intro h
    rw [List.pairwise_cons] at h
    obtain ⟨hu, hrest⟩ := h
    unfold insertByNewest
    by_cases hc : u.created ≤ t.created
    · rw [if_pos hc, List.pairwise_cons]
      refine ⟨fun x hx => ?_, ?_⟩
      · rcases List.mem_cons.mp hx with rfl | hx'
        · exact hc
        · exact le_trans (hu x hx') hc
      · rw [List.pairwise_cons]
        exact ⟨hu, hrest⟩
    · rw [if_neg hc, List.pairwise_cons]
      refine ⟨fun x hx => ?_, ih hrest⟩
      rcases (mem_insertByNewest t rest x).mp hx with rfl | hx'
      · exact le_of_not_le hc
      · exact hu x hx'

/-- The newest-first sort is pairwise ordered. -/
theorem sortByNewest_pairwise : ∀ l : List TemplateM,
    List.Pairwise (fun a b : TemplateM => b.created ≤ a.created) (sortByNewest l) := by
  intro l
  induction l with
  | nil => simp [sortByNewest]
  | cons t rest ih => exact insertByNewest_pairwise t (sortByNewest rest) ih

/-- The head of the newest-first sort has the maximal creation timestamp. -/
theorem sortByNewest_head_max (l : List TemplateM) (t : TemplateM)
    (h : (sortByNewest l).head? = some t) : ∀ u ∈ l, u.created ≤ t.created := by
  intro u hu
  have hp := sortByNewest_pairwise l
  have hum : u ∈ sortByNewest l := (mem_sortByNewest l u).mpr hu
  cases hs : sortByNewest l with
  | nil =>
    rw [hs] at hum
    simp at hum
  | cons a rest =>
    rw [hs] at h hum hp
    injection h with h'
    subst h'
    rw [List.pairwise_cons] at hp
    rcases List.mem_cons.mp hum with rfl | hx
    · exact le_refl _
    · exact hp.1 u hx

/-- findTemplate returns a matching template of maximal creation timestamp. -/
theorem findTemplate_newest (l : List TemplateM) (t : TemplateM) :
    findTemplate l = some t → t ∈ l ∧ ∀ u ∈ l, u.created ≤ t.created := by
  intro h
  cases l with
  | nil => simp [findTemplate] at h
  | cons a rest =>
    cases rest with
    | nil =>
      simp [findTemplate] at h
      subst h
      refine ⟨List.mem_singleton_self a, fun u hu => ?_⟩
      rcases List.mem_singleton.mp hu with rfl
      exact le_refl _
    | cons b rest' =>
      unfold findTemplate at h
      refine ⟨?_, sortByNewest_head_max _ t h⟩
      exact (mem_sortByNewest _ t).mp (List.mem_of_mem_head? h)

/-- After removing a key, looking it up yields nothing. -/
theorem lookupS_removeKeyS (l : List (String × String)) (key : String) :
    lookupS (removeKeyS l key) key = none := by
  induction l with
  | nil => rfl
  | cons kv rest ih =>
    obtain ⟨a, b⟩ := kv
    by_cases h : a = key <;>
      simp [removeKeyS, List.filter_cons, h, lookupS, ih] <;>
      simpa [removeKeyS] using ih

/-- processTemplate as coded binds NAME to the display name and every other
parameter to the literal value "other". -/
theorem processTemplateParams_values (vmName : String) :
    ∀ ps : List TmplParam,
      (processTemplateParams vmName ps).map (fun p => (p.name, p.value)) =
        ps.map (fun p => (p.name, if p.name = "NAME" then vmName else "other")) := by
  intro ps
  induction ps with
  | nil => rfl
  | cons p rest ih =>
    simp only [processTemplateParams, List.map_cons] at ih ⊢
    by_cases h : p.name = "NAME" <;> simp [h, ih]

/-- Claim C6 counterexample: a non-NAME template parameter is filled with the
fixed literal "other", not with the output of the random-value generator the
spec describes; for a generator producing "generated" the coded and the
spec-described parameterizations disagree on a concrete template. -/
theorem c6_counterexample :
    processTemplateParams "vm1" [⟨"PASSWORD", "", "expr"⟩] ≠
      processTemplateParamsSpec "vm1" (fun _ => "generated") [⟨"PASSWORD", "", "expr"⟩] ∧
    (processTemplateParams "vm1" [⟨"PASSWORD", "", "expr"⟩]).map (fun p => p.value) =
      ["other"] := by
  constructor
  · decide
  · decide

/-- Claim C6 amended: findTemplate selects a guest-OS matching template of
maximal creation timestamp; parameterization binds the NAME parameter to the
VM display name and fills every other parameter with the fixed literal
"other"; the decoded VM definition gets the VM name and target namespace,
its volumes, networks and data-volume-templates reset to empty, and its
validations annotation stripped. -/
theorem c6_template_strategy (l : List TemplateM) (t : TemplateM) (vmName ns : String)
    (vmLs : List (LKey × String)) (v : VmDefT) (ps : List TmplParam) :
    (findTemplate l = some t → t ∈ l ∧ ∀ u ∈ l, u.created ≤ t.created) ∧
    ((processTemplateParams vmName ps).map (fun p => (p.name, p.value)) =
        ps.map (fun p => (p.name, if p.name = "NAME" then vmName else "other"))) ∧
    ((vmTemplateFinalize vmName ns vmLs v).volumes = [] ∧
      (vmTemplateFinalize vmName ns vmLs v).networks = [] ∧
      (vmTemplateFinalize vmName ns vmLs v).dvTemplates = [] ∧
      (vmTemplateFinalize vmName ns vmLs v).name = vmName ∧
      (vmTemplateFinalize vmName ns vmLs v).ns = ns ∧
      lookupS (vmTemplateFinalize vmName ns vmLs v).annots annKubevirtValidations =
        none) :=
  ⟨findTemplate_newest l t, processTemplateParams_values vmName ps,
    rfl, rfl, rfl, rfl, rfl, lookupS_removeKeyS _ _⟩

/-- Witness for C6: among two matching templates the newer one is selected. -/
theorem c6_template_strategy_witness :
    (⟨5, []⟩ : TemplateM) ∈ ([⟨1, []⟩, ⟨5, []⟩] : List TemplateM) :=
  ((c6_template_strategy [⟨1, []⟩, ⟨5, []⟩] ⟨5, []⟩ "vm1" "ns0" []
      (emptyVm "a" "b" []) []).1 (by decide)).1

end Forklift
